import Mathlib

/-!
Verification of the Universal Credit calculation engine
(`app/utils/uc_calculator.py`) and the LHA rate lookup service
(`app/utils/lha_service.py`).

Monetary amounts are modelled as exact rationals (`ℚ`): the design notes
of the specification mandate fixed-point decimal semantics for money, and
every rate constant in the source is an exact decimal literal.  Python
`round(x, 2)` is round-half-to-even on those decimals, embedded below as
`round2`.  A Python `raise` is embedded as the `Except.error` branch of an
`Except String` result; `Optional` arguments become `Option`.
-/

namespace UC

/-- The rate schedule of `class UCRates` (2026-2027 figures).  Field names
follow the source attributes; the four standard-allowance dictionary
entries become four fields. -/
structure UCRates where
  single_under_25 : ℚ
  single_25_plus : ℚ
  joint_under_25 : ℚ
  joint_25_plus : ℚ
  FIRST_CHILD_ELEMENT : ℚ
  ADDITIONAL_CHILD_ELEMENT : ℚ
  DISABLED_CHILD_ADDITION : ℚ
  CHILDCARE_PERCENTAGE : ℚ
  CHILDCARE_MAX_ONE_CHILD : ℚ
  CHILDCARE_MAX_TWO_PLUS : ℚ
  EARNINGS_TAPER : ℚ
  WORK_ALLOWANCE_WITH_CHILDREN : ℚ
  WORK_ALLOWANCE_WITHOUT_CHILDREN : ℚ
  WORK_ABILITY_ELEMENT : ℚ
  CARER_ELEMENT : ℚ
deriving DecidableEq

/-- The concrete constants of `class UCRates` in `uc_calculator.py`. -/
def defaultRates : UCRates where
  single_under_25 := 338.58
  single_25_plus := 424.90
  joint_under_25 := 528.34
  joint_25_plus := 666.97
  FIRST_CHILD_ELEMENT := 284.89
  ADDITIONAL_CHILD_ELEMENT := 237.05
  DISABLED_CHILD_ADDITION := 137.45
  CHILDCARE_PERCENTAGE := 0.85
  CHILDCARE_MAX_ONE_CHILD := 175.00
  CHILDCARE_MAX_TWO_PLUS := 300.00
  EARNINGS_TAPER := 0.55
  WORK_ALLOWANCE_WITH_CHILDREN := 290.00
  WORK_ALLOWANCE_WITHOUT_CHILDREN := 0.00
  WORK_ABILITY_ELEMENT := 134.88
  CARER_ELEMENT := 163.44

/-- One entry of the `children` list: a dict with key `age` and optional
key `is_disabled` (defaulting to `False`, already resolved here). -/
structure Child where
  age : ℤ
  is_disabled : Bool
deriving DecidableEq

/-- Python truthiness-based `partner_age or claimant_age` on an
`Optional[int]`: both `None` and `0` are falsy, so the right operand is
used for either. -/
def pyOrInt (a : Option ℤ) (b : ℤ) : ℤ :=
  match a with
  | none => b
  | some x => if x = 0 then b else x

/-- `UCCalculator._calculate_standard_allowance`.  The `ValueError` raised
for an unknown claimant type is the `Except.error` branch. -/
def calculateStandardAllowance (rates : UCRates) (claimant_type : String)
    (claimant_age : ℤ) (partner_age : Option ℤ) : Except String ℚ :=
  if claimant_type = "single" then
    if claimant_age < 25 then .ok rates.single_under_25
    else .ok rates.single_25_plus
  else if claimant_type = "joint" then
    let min_age := min claimant_age (pyOrInt partner_age claimant_age)
    if min_age < 25 then .ok rates.joint_under_25
    else .ok rates.joint_25_plus
  else
    .error ("Invalid claimant type: " ++ claimant_type)

/-- `UCCalculator._calculate_housing_element`. -/
def calculateHousingElement (monthly_rent : ℚ) (lha_rate : Option ℚ) : ℚ :=
  match lha_rate with
  | none => monthly_rent
  | some cap => min monthly_rent cap

/-- Body of the `for idx, child in enumerate(children)` loop of
`_calculate_child_element`, carrying the running index and total. -/
def childElemLoop (rates : UCRates) : ℕ → List Child → ℚ → ℚ
  | _, [], total => total
  | idx, c :: cs, total =>
      let total := total +
        (if idx = 0 then rates.FIRST_CHILD_ELEMENT
         else rates.ADDITIONAL_CHILD_ELEMENT)
      let total :=
        if c.is_disabled then total + rates.DISABLED_CHILD_ADDITION
        else total
      childElemLoop rates (idx + 1) cs total

/-- `UCCalculator._calculate_child_element`. -/
def calculateChildElement (rates : UCRates) (children : List Child) : ℚ :=
  if children = [] then 0
  else childElemLoop rates 0 children 0

/-- `UCCalculator._calculate_childcare_element`. -/
def calculateChildcareElement (rates : UCRates) (costs : ℚ)
    (num_children : ℕ) : ℚ :=
  if costs ≤ 0 ∨ num_children = 0 then 0
  else
    let max_costs :=
      if 2 ≤ num_children then rates.CHILDCARE_MAX_TWO_PLUS
      else rates.CHILDCARE_MAX_ONE_CHILD
    let eligible_costs := min costs max_costs
    eligible_costs * rates.CHILDCARE_PERCENTAGE

/-- `UCCalculator._get_work_allowance`.  The `claimant_type` and
`has_work_allowance` parameters are accepted but never read, exactly as in
the source. -/
def getWorkAllowance (rates : UCRates) (claimant_type : String)
    (has_work_allowance : Bool) (num_children : ℕ)
    (has_disability : Bool) (is_carer : Bool) : ℚ :=
  if ¬(0 < num_children ∨ has_disability ∨ is_carer) then 0
  else if 0 < num_children then rates.WORK_ALLOWANCE_WITH_CHILDREN
  else rates.WORK_ALLOWANCE_WITH_CHILDREN

/-- `UCCalculator._calculate_earnings_deduction`. -/
def calculateEarningsDeduction (rates : UCRates) (monthly_earnings : ℚ)
    (partner_monthly_earnings : ℚ) (work_allowance : ℚ) : ℚ :=
  let total_earnings := monthly_earnings + partner_monthly_earnings
  if total_earnings ≤ work_allowance then 0
  else (total_earnings - work_allowance) * rates.EARNINGS_TAPER

/-- Python `round(x * 100)`: nearest integer, ties to even. -/
def roundHalfEven (x : ℚ) : ℤ :=
  if x - ⌊x⌋ < 1 / 2 then ⌊x⌋
  else if 1 / 2 < x - ⌊x⌋ then ⌊x⌋ + 1
  else if ⌊x⌋ % 2 = 0 then ⌊x⌋ else ⌊x⌋ + 1

/-- Python `round(x, 2)` on the exact decimal semantics of the spec. -/
def round2 (x : ℚ) : ℚ := (roundHalfEven (x * 100) : ℚ) / 100

/-- The dictionary returned by `UCCalculator.calculate`. -/
structure Breakdown where
  standard_allowance : ℚ
  housing_element : ℚ
  child_element : ℚ
  childcare_element : ℚ
  disability_element : ℚ
  carer_element : ℚ
  gross_entitlement : ℚ
  work_allowance : ℚ
  total_earnings : ℚ
  earnings_deduction : ℚ
  total_entitlement : ℚ
deriving DecidableEq

/-- `UCCalculator.calculate`.  The order of stages follows the source: the
standard allowance is computed first, so its `ValueError` aborts the call
before any other element is computed. -/
def calculate (rates : UCRates) (claimant_type : String) (claimant_age : ℤ)
    (partner_age : Option ℤ) (children : Option (List Child))
    (monthly_earnings partner_monthly_earnings monthly_rent : ℚ)
    (lha_rate : Option ℚ) (has_work_allowance : Bool)
    (monthly_childcare_costs : ℚ) (has_disability is_carer : Bool) :
    Except String Breakdown :=
  let children := children.getD []
  match calculateStandardAllowance rates claimant_type claimant_age partner_age with
  | .error e => .error e
  | .ok standard_allowance =>
    let housing_element := calculateHousingElement monthly_rent lha_rate
    let child_element := calculateChildElement rates children
    let childcare_element :=
      calculateChildcareElement rates monthly_childcare_costs children.length
    let disability_element : ℚ :=
      if has_disability then rates.WORK_ABILITY_ELEMENT else 0
    let carer_element : ℚ := if is_carer then rates.CARER_ELEMENT else 0
    let gross_entitlement :=
      standard_allowance + housing_element + child_element +
        childcare_element + disability_element + carer_element
    let work_allowance :=
      getWorkAllowance rates claimant_type has_work_allowance
        children.length has_disability is_carer
    let earnings_deduction :=
      calculateEarningsDeduction rates monthly_earnings
        partner_monthly_earnings work_allowance
    let total_entitlement := max 0 (gross_entitlement - earnings_deduction)
    .ok {
      standard_allowance := round2 standard_allowance
      housing_element := round2 housing_element
      child_element := round2 child_element
      childcare_element := round2 childcare_element
      disability_element := round2 disability_element
      carer_element := round2 carer_element
      gross_entitlement := round2 gross_entitlement
      work_allowance := round2 work_allowance
      total_earnings := round2 (monthly_earnings + partner_monthly_earnings)
      earnings_deduction := round2 earnings_deduction
      total_entitlement := round2 total_entitlement }

/-- Rounding to the nearest integer never goes below zero on a
non-negative argument. -/
lemma roundHalfEven_nonneg {x : ℚ} (hx : 0 ≤ x) : 0 ≤ roundHalfEven x := by
  have h0 : (0 : ℤ) ≤ ⌊x⌋ := Int.floor_nonneg.mpr hx
  unfold roundHalfEven
  split_ifs <;> omega

/-- Integers are fixed points of round-half-to-even. -/
lemma roundHalfEven_intCast (n : ℤ) : roundHalfEven (n : ℚ) = n := by
  unfold roundHalfEven
  rw [Int.floor_intCast]
  norm_num

/-- `round2` preserves non-negativity. -/
lemma round2_nonneg {x : ℚ} (hx : 0 ≤ x) : 0 ≤ round2 x := by
  unfold round2
  have h : (0 : ℤ) ≤ roundHalfEven (x * 100) :=
    roundHalfEven_nonneg (by positivity)
  have h2 : (0 : ℚ) ≤ (roundHalfEven (x * 100) : ℚ) := mod_cast h
  positivity

/-- A quantity that is an exact multiple of a hundredth is unchanged by
rounding to two decimal places. -/
lemma round2_eq_self {x : ℚ} (n : ℤ) (hx : x * 100 = (n : ℚ)) :
    round2 x = x := by
  unfold round2
  rw [hx, roundHalfEven_intCast, ← hx]
  ring

lemma round2_zero : round2 0 = 0 := round2_eq_self 0 (by norm_num)

/-- The unrounded gross entitlement of `calculate`, as a function of the
succeeding standard-allowance value `sa` and the other inputs. -/
def grossEntitlementOf (rates : UCRates) (cs : List Child) (mr : ℚ)
    (lha : Option ℚ) (cc : ℚ) (hd ic : Bool) (sa : ℚ) : ℚ :=
  sa + calculateHousingElement mr lha + calculateChildElement rates cs +
    calculateChildcareElement rates cc cs.length +
    (if hd then rates.WORK_ABILITY_ELEMENT else 0) +
    (if ic then rates.CARER_ELEMENT else 0)

/-- The unrounded earnings deduction of `calculate`, as a function of its
inputs. -/
def deductionOf (rates : UCRates) (ct : String) (hwa : Bool)
    (cs : List Child) (hd ic : Bool) (me pme : ℚ) : ℚ :=
  calculateEarningsDeduction rates me pme
    (getWorkAllowance rates ct hwa cs.length hd ic)

/-- Evaluation of `UCCalculator.calculate` once the standard allowance
stage has succeeded: the breakdown is the rounded image of the unrounded
stage results. -/
lemma calculate_ok (rates : UCRates) (ct : String) (ca : ℤ)
    (pa : Option ℤ) (cs : List Child) (me pme mr : ℚ) (lha : Option ℚ)
    (hwa : Bool) (cc : ℚ) (hd ic : Bool) (sa : ℚ)
    (hsa : calculateStandardAllowance rates ct ca pa = .ok sa) :
    calculate rates ct ca pa (some cs) me pme mr lha hwa cc hd ic =
      .ok {
        standard_allowance := round2 sa
        housing_element := round2 (calculateHousingElement mr lha)
        child_element := round2 (calculateChildElement rates cs)
        childcare_element := round2 (calculateChildcareElement rates cc cs.length)
        disability_element :=
          round2 (if hd then rates.WORK_ABILITY_ELEMENT else 0)
        carer_element := round2 (if ic then rates.CARER_ELEMENT else 0)
        gross_entitlement :=
          round2 (grossEntitlementOf rates cs mr lha cc hd ic sa)
        work_allowance :=
          round2 (getWorkAllowance rates ct hwa cs.length hd ic)
        total_earnings := round2 (me + pme)
        earnings_deduction :=
          round2 (deductionOf rates ct hwa cs hd ic me pme)
        total_entitlement :=
          round2 (max 0 (grossEntitlementOf rates cs mr lha cc hd ic sa -
            deductionOf rates ct hwa cs hd ic me pme)) } := by
  unfold calculate
  rw [hsa]
  rfl

end UC

/-- C1: for every valid input (one on which `calculate` returns a
breakdown, the standard-allowance stage having produced `sa`), the
`total_entitlement` field equals the 2-decimal rounding of gross minus
deduction when gross is at least the deduction, equals `0` otherwise, and
is never negative. -/
theorem UC.c1_total_entitlement (rates : UCRates) (ct : String) (ca : ℤ)
    (pa : Option ℤ) (cs : List Child) (me pme mr : ℚ) (lha : Option ℚ)
    (hwa : Bool) (cc : ℚ) (hd ic : Bool) (sa : ℚ) (bd : Breakdown)
    (hsa : calculateStandardAllowance rates ct ca pa = .ok sa)
    (hbd : calculate rates ct ca pa (some cs) me pme mr lha hwa cc hd ic =
      .ok bd) :
    0 ≤ bd.total_entitlement ∧
      (deductionOf rates ct hwa cs hd ic me pme ≤
          grossEntitlementOf rates cs mr lha cc hd ic sa →
        bd.total_entitlement =
          round2 (grossEntitlementOf rates cs mr lha cc hd ic sa -
            deductionOf rates ct hwa cs hd ic me pme)) ∧
      (grossEntitlementOf rates cs mr lha cc hd ic sa <
          deductionOf rates ct hwa cs hd ic me pme →
        bd.total_entitlement = 0) := by
  rw [calculate_ok rates ct ca pa cs me pme mr lha hwa cc hd ic sa hsa] at hbd
  injection hbd with h
  subst h
  refine ⟨round2_nonneg (le_max_left 0 _), fun h => ?_, fun h => ?_⟩
  · exact congrArg round2 (max_eq_right (sub_nonneg.mpr h))
  · exact (congrArg round2 (max_eq_left (sub_nonpos.mpr h.le))).trans
      round2_zero

/-- Concrete breakdown for the C1 witness input: single claimant aged 30,
rent 100, nothing else. -/
def UC.bdA : Breakdown where
  standard_allowance := 424.9
  housing_element := 100
  child_element := 0
  childcare_element := 0
  disability_element := 0
  carer_element := 0
  gross_entitlement := 524.9
  work_allowance := 0
  total_earnings := 0
  earnings_deduction := 0
  total_entitlement := 524.9

/-- Witness for C1 at a single claimant aged 30 with rent 100. -/
theorem UC.c1_total_entitlement_witness :
    calculateStandardAllowance defaultRates "single" 30 none =
      Except.ok 424.9 ∧
    calculate defaultRates "single" 30 none (some []) 0 0 100 none false 0
      false false = Except.ok bdA ∧
    (0 ≤ bdA.total_entitlement ∧
      (deductionOf defaultRates "single" false [] false false 0 0 ≤
          grossEntitlementOf defaultRates [] 100 none 0 false false 424.9 →
        bdA.total_entitlement =
          round2 (grossEntitlementOf defaultRates [] 100 none 0 false false
            424.9 - deductionOf defaultRates "single" false [] false false
            0 0)) ∧
      (grossEntitlementOf defaultRates [] 100 none 0 false false 424.9 <
          deductionOf defaultRates "single" false [] false false 0 0 →
        bdA.total_entitlement = 0)) := by
  have hsa : calculateStandardAllowance defaultRates "single" 30 none =
      Except.ok 424.9 := by
    norm_num [calculateStandardAllowance, defaultRates]
  have hbd : calculate defaultRates "single" 30 none (some []) 0 0 100 none
      false 0 false false = Except.ok bdA := by
    rw [calculate_ok defaultRates "single" 30 none [] 0 0 100 none false 0
      false false 424.9 hsa]
    have e1 : round2 (424.9 : ℚ) = 424.9 := round2_eq_self 42490 (by norm_num)
    have e2 : round2 (100 : ℚ) = 100 := round2_eq_self 10000 (by norm_num)
    have e3 : round2 (524.9 : ℚ) = 524.9 := round2_eq_self 52490 (by norm_num)
    norm_num [bdA, grossEntitlementOf, deductionOf, calculateHousingElement,
      calculateChildElement, calculateChildcareElement, getWorkAllowance,
      calculateEarningsDeduction, e1, e2, e3, round2_zero]
    exact ⟨round2_eq_self 42490 (by norm_num),
      round2_eq_self 52490 (by norm_num)⟩
  exact ⟨hsa, hbd, c1_total_entitlement defaultRates "single" 30 none [] 0 0
    100 none false 0 false false 424.9 bdA hsa hbd⟩

/-- Concrete breakdown returned for a joint claim aged 30 with the partner
age absent: no error is raised. -/
def UC.bdB : Breakdown where
  standard_allowance := 666.97
  housing_element := 0
  child_element := 0
  childcare_element := 0
  disability_element := 0
  carer_element := 0
  gross_entitlement := 666.97
  work_allowance := 0
  total_earnings := 0
  earnings_deduction := 0
  total_entitlement := 666.97

/-- The standard-allowance stage always succeeds on the two valid
arrangement values, whatever the ages. -/
lemma UC.calculateStandardAllowance_isOk (rates : UCRates) (ct : String)
    (ca : ℤ) (pa : Option ℤ) (h : ct = "single" ∨ ct = "joint") :
    ∃ v, calculateStandardAllowance rates ct ca pa = .ok v := by
  rcases h with h | h <;> subst h <;> unfold calculateStandardAllowance
  · rw [if_pos rfl]
    exact ⟨_, (apply_ite Except.ok _ _ _).symm⟩
  · rw [if_neg (by decide : ¬("joint" : String) = "single"), if_pos rfl]
    exact ⟨_, (apply_ite Except.ok _ _ _).symm⟩

/-- C2 counterexample: a joint claim with `partner_age` absent does not
raise; `calculate` returns a complete breakdown (here using the 25-and-over
joint rate, because the claimant age 30 is substituted for the missing
partner age). -/
theorem UC.c2_counterexample :
    calculate defaultRates "joint" 30 none (some []) 0 0 0 none false 0
      false false = Except.ok bdB := by
  have hsa : calculateStandardAllowance defaultRates "joint" 30 none =
      Except.ok 666.97 := by
    unfold calculateStandardAllowance
    rw [if_neg (by decide : ¬("joint" : String) = "single"), if_pos rfl]
    norm_num [pyOrInt, defaultRates]
  rw [calculate_ok defaultRates "joint" 30 none [] 0 0 0 none false 0
    false false 666.97 hsa]
  norm_num [bdB, grossEntitlementOf, deductionOf, calculateHousingElement,
    calculateChildElement, calculateChildcareElement, getWorkAllowance,
    calculateEarningsDeduction, round2_zero]
  exact round2_eq_self 66697 (by norm_num)

/-- C2 amended: a joint claim with `partner_age` absent raises no error;
`calculate` substitutes the claimant age for the missing partner age (the
call is equivalent to one with `partner_age = claimant_age`) and returns a
complete breakdown. -/
theorem UC.c2_absent_partner_age (rates : UCRates) (ca : ℤ)
    (och : Option (List Child)) (me pme mr : ℚ) (lha : Option ℚ)
    (hwa : Bool) (cc : ℚ) (hd ic : Bool) :
    calculate rates "joint" ca none och me pme mr lha hwa cc hd ic =
      calculate rates "joint" ca (some ca) och me pme mr lha hwa cc hd ic ∧
    ∃ bd, calculate rates "joint" ca none och me pme mr lha hwa cc hd ic =
      .ok bd := by
  have hsa : calculateStandardAllowance rates "joint" ca none =
      calculateStandardAllowance rates "joint" ca (some ca) := by
    simp [calculateStandardAllowance, pyOrInt]
  obtain ⟨v, hv⟩ :=
    calculateStandardAllowance_isOk rates "joint" ca none (Or.inr rfl)
  constructor
  · unfold calculate
    rw [hsa]
  · unfold calculate
    rw [hv]
    exact ⟨_, rfl⟩

/-- C3: an arrangement outside single and joint makes `calculate` return
the invalid-input error (never a crash: the embedding is total), and any
arrangement inside that set — in particular every input of the constrained
domain of the data model — yields a complete breakdown, whatever the other
arguments are. -/
theorem UC.c3_validation (rates : UCRates) (ct : String) (ca : ℤ)
    (pa : Option ℤ) (och : Option (List Child)) (me pme mr : ℚ)
    (lha : Option ℚ) (hwa : Bool) (cc : ℚ) (hd ic : Bool) :
    (ct ≠ "single" ∧ ct ≠ "joint" →
      calculate rates ct ca pa och me pme mr lha hwa cc hd ic =
        .error ("Invalid claimant type: " ++ ct)) ∧
    (ct = "single" ∨ ct = "joint" →
      (calculate rates ct ca pa och me pme mr lha hwa cc hd ic).isOk =
        true) := by
  constructor
  · rintro ⟨h1, h2⟩
    unfold calculate calculateStandardAllowance
    rw [if_neg h1, if_neg h2]
  · intro hct
    obtain ⟨v, hv⟩ := calculateStandardAllowance_isOk rates ct ca pa hct
    unfold calculate
    rw [hv]
    rfl

/-- Witness for C3: the arrangement value outside the set gives the error,
a single claim gives a breakdown. -/
theorem UC.c3_validation_witness :
    calculate defaultRates "couple" 30 none (some []) 0 0 0 none false 0
      false false = .error ("Invalid claimant type: " ++ "couple") ∧
    (calculate defaultRates "single" 30 none (some []) 0 0 0 none false 0
      false false).isOk = true := by
  constructor
  · exact (c3_validation defaultRates "couple" 30 none (some []) 0 0 0 none
      false 0 false false).1 ⟨by decide, by decide⟩
  · exact (c3_validation defaultRates "single" 30 none (some []) 0 0 0 none
      false 0 false false).2 (Or.inl rfl)

/-- The work allowance reduces to a single flat amount under the trigger
condition and zero otherwise. -/
lemma UC.getWorkAllowance_eq (rates : UCRates) (ct : String) (hwa : Bool)
    (n : ℕ) (hd ic : Bool) :
    getWorkAllowance rates ct hwa n hd ic =
      if 0 < n ∨ hd = true ∨ ic = true then
        rates.WORK_ALLOWANCE_WITH_CHILDREN
      else 0 := by
  unfold getWorkAllowance
  split_ifs <;> rfl

/-- C4: the earnings deduction emitted by `calculate` is the taper applied
to combined earnings above the disregard, the disregard being the flat
work-allowance amount exactly when there are dependents, a disability, or
carer status, and zero otherwise. -/
theorem UC.c4_earnings_deduction (rates : UCRates) (ct : String) (ca : ℤ)
    (pa : Option ℤ) (cs : List Child) (me pme mr : ℚ) (lha : Option ℚ)
    (hwa : Bool) (cc : ℚ) (hd ic : Bool) (sa : ℚ) (bd : Breakdown)
    (hsa : calculateStandardAllowance rates ct ca pa = .ok sa)
    (hbd : calculate rates ct ca pa (some cs) me pme mr lha hwa cc hd ic =
      .ok bd) :
    bd.earnings_deduction =
      round2 (if me + pme ≤
          (if 0 < cs.length ∨ hd = true ∨ ic = true then
            rates.WORK_ALLOWANCE_WITH_CHILDREN else 0) then 0
        else ((me + pme) -
          (if 0 < cs.length ∨ hd = true ∨ ic = true then
            rates.WORK_ALLOWANCE_WITH_CHILDREN else 0)) *
          rates.EARNINGS_TAPER) := by
  rw [calculate_ok rates ct ca pa cs me pme mr lha hwa cc hd ic sa hsa] at hbd
  injection hbd with h
  subst h
  have hded : deductionOf rates ct hwa cs hd ic me pme =
      (if me + pme ≤
          (if 0 < cs.length ∨ hd = true ∨ ic = true then
            rates.WORK_ALLOWANCE_WITH_CHILDREN else 0) then 0
        else ((me + pme) -
          (if 0 < cs.length ∨ hd = true ∨ ic = true then
            rates.WORK_ALLOWANCE_WITH_CHILDREN else 0)) *
          rates.EARNINGS_TAPER) := by
    unfold deductionOf calculateEarningsDeduction
    rw [getWorkAllowance_eq]
  exact congrArg round2 hded

/-- Concrete breakdown for the C4 witness: single claimant aged 30, one
dependent aged 5, earnings 500. -/
def UC.bdD : Breakdown where
  standard_allowance := 424.9
  housing_element := 0
  child_element := 284.89
  childcare_element := 0
  disability_element := 0
  carer_element := 0
  gross_entitlement := 709.79
  work_allowance := 290
  total_earnings := 500
  earnings_deduction := 115.5
  total_entitlement := 594.29

/-- Witness for C4: with one dependent and earnings 500 the deduction is
the taper applied above the flat disregard. -/
theorem UC.c4_earnings_deduction_witness :
    calculateStandardAllowance defaultRates "single" 30 none =
      Except.ok 424.9 ∧
    calculate defaultRates "single" 30 none (some [⟨5, false⟩]) 500 0 0 none
      false 0 false false = Except.ok bdD ∧
    bdD.earnings_deduction =
      round2 (if (500 : ℚ) + 0 ≤
          (if 0 < [(⟨5, false⟩ : Child)].length ∨ false = true ∨
              false = true then
            defaultRates.WORK_ALLOWANCE_WITH_CHILDREN else 0) then 0
        else (((500 : ℚ) + 0) -
          (if 0 < [(⟨5, false⟩ : Child)].length ∨ false = true ∨
              false = true then
            defaultRates.WORK_ALLOWANCE_WITH_CHILDREN else 0)) *
          defaultRates.EARNINGS_TAPER) := by
  have hsa : calculateStandardAllowance defaultRates "single" 30 none =
      Except.ok 424.9 := by
    norm_num [calculateStandardAllowance, defaultRates]
  have hbd : calculate defaultRates "single" 30 none (some [⟨5, false⟩])
      500 0 0 none false 0 false false = Except.ok bdD := by
    rw [calculate_ok defaultRates "single" 30 none [⟨5, false⟩] 500 0 0 none
      false 0 false false 424.9 hsa]
    norm_num [bdD, grossEntitlementOf, deductionOf, calculateHousingElement,
      calculateChildElement, childElemLoop, calculateChildcareElement,
      getWorkAllowance, calculateEarningsDeduction, defaultRates, round2_zero]
    exact ⟨round2_eq_self 42490 (by norm_num),
      round2_eq_self 28489 (by norm_num),
      round2_eq_self 70979 (by norm_num),
      round2_eq_self 29000 (by norm_num),
      round2_eq_self 50000 (by norm_num),
      round2_eq_self 11550 (by norm_num),
      round2_eq_self 59429 (by norm_num)⟩
  exact ⟨hsa, hbd, c4_earnings_deduction defaultRates "single" 30 none
    [⟨5, false⟩] 500 0 0 none false 0 false false 424.9 bdD hsa hbd⟩

/-- Per-dependent amount contributed by a dependent other than the first:
the flat additional rate plus the disabled addition when flagged. -/
def UC.additionalTerm (rates : UCRates) (c : Child) : ℚ :=
  rates.ADDITIONAL_CHILD_ELEMENT +
    (if c.is_disabled then rates.DISABLED_CHILD_ADDITION else 0)

/-- Unwinding the enumerate loop of `_calculate_child_element` from any
non-zero starting index: every visited dependent contributes the
additional-rate term. -/
lemma UC.childElemLoop_eq_sum (rates : UCRates) (cs : List Child) :
    ∀ (idx : ℕ) (total : ℚ), idx ≠ 0 →
      childElemLoop rates idx cs total =
        total + (cs.map (additionalTerm rates)).sum := by
  induction cs with
  | nil => intro idx total h; simp [childElemLoop]
  | cons c cs ih =>
    intro idx total h
    simp only [childElemLoop, if_neg h]
    rw [ih (idx + 1) _ (Nat.succ_ne_zero idx)]
    simp only [List.map_cons, List.sum_cons, additionalTerm]
    cases hc : c.is_disabled <;> simp [hc] <;> ring

/-- The child element of a non-empty dependent sequence: the first
dependent contributes the first rate, the rest the additional rate, each
plus the disabled addition when flagged. -/
lemma UC.calculateChildElement_cons (rates : UCRates) (c : Child)
    (cs : List Child) :
    calculateChildElement rates (c :: cs) =
      rates.FIRST_CHILD_ELEMENT +
        (if c.is_disabled then rates.DISABLED_CHILD_ADDITION else 0) +
        (cs.map (additionalTerm rates)).sum := by
  unfold calculateChildElement
  rw [if_neg (by simp)]
  simp only [childElemLoop, if_pos rfl]
  rw [childElemLoop_eq_sum rates cs 1 _ one_ne_zero]
  cases hc : c.is_disabled <;> simp [hc]

/-- Flipping the disabled flag of one dependent in the tail of the
sequence moves the sum of additional-rate terms by exactly the disabled
addition. -/
lemma UC.sum_map_set_disabled (rates : UCRates) (cs : List Child) :
    ∀ (i : ℕ) (c : Child), cs[i]? = some c →
      ((cs.set i ⟨c.age, true⟩).map (additionalTerm rates)).sum =
        ((cs.set i ⟨c.age, false⟩).map (additionalTerm rates)).sum +
          rates.DISABLED_CHILD_ADDITION := by
  induction cs with
  | nil => intro i c h; simp at h
  | cons d cs ih =>
    intro i c h
    cases i with
    | zero =>
      simp only [List.getElem?_cons_zero, Option.some.injEq] at h
      subst h
      simp [List.set, additionalTerm]
      ring
    | succ j =>
      simp only [List.getElem?_cons_succ] at h
      simp only [List.set, List.map_cons, List.sum_cons]
      rw [ih j c h]
      ring

/-- C5: the child element is zero for no dependents; otherwise the first
dependent (in input order) contributes the first rate and every later one
the flat additional rate, the disabled addition stacking on top; and
flipping the disabled flag of the dependent at any position changes the
total by exactly the disabled-addition constant. -/
theorem UC.c5_child_element (rates : UCRates) (c : Child)
    (rest cs : List Child) (i : ℕ) (ci : Child) (h : cs[i]? = some ci) :
    calculateChildElement rates [] = 0 ∧
    calculateChildElement rates (c :: rest) =
      rates.FIRST_CHILD_ELEMENT +
        (if c.is_disabled then rates.DISABLED_CHILD_ADDITION else 0) +
        (rest.map (additionalTerm rates)).sum ∧
    calculateChildElement rates (cs.set i ⟨ci.age, true⟩) =
      calculateChildElement rates (cs.set i ⟨ci.age, false⟩) +
        rates.DISABLED_CHILD_ADDITION := by
  refine ⟨rfl, calculateChildElement_cons rates c rest, ?_⟩
  cases cs with
  | nil => simp at h
  | cons d cs2 =>
    cases i with
    | zero =>
      simp only [List.getElem?_cons_zero, Option.some.injEq] at h
      subst h
      simp only [List.set]
      rw [calculateChildElement_cons, calculateChildElement_cons]
      simp
      ring
    | succ j =>
      simp only [List.getElem?_cons_succ] at h
      simp only [List.set]
      rw [calculateChildElement_cons, calculateChildElement_cons,
        sum_map_set_disabled rates cs2 j ci h]
      ring

/-- Witness for C5: flipping the disabled flag of the second of two
dependents raises the child element by exactly the disabled addition. -/
theorem UC.c5_child_element_witness :
    calculateChildElement defaultRates [⟨8, false⟩, ⟨5, true⟩] =
      calculateChildElement defaultRates [⟨8, false⟩, ⟨5, false⟩] +
        137.45 := by
  have h := (c5_child_element defaultRates ⟨8, false⟩ []
    [⟨8, false⟩, ⟨5, true⟩] 1 ⟨5, true⟩ rfl).2.2
  simpa [defaultRates] using h

/-- C6: the childcare element of the breakdown is zero whenever the
declared cost is non-positive or there are no dependents; otherwise it is
the reimbursement percentage of the cost capped by the dependent-count
cap.  `calculate` takes no has-childcare-costs flag at all, so no flag can
gate this element. -/
theorem UC.c6_childcare_element (rates : UCRates) (ct : String) (ca : ℤ)
    (pa : Option ℤ) (cs : List Child) (me pme mr : ℚ) (lha : Option ℚ)
    (hwa : Bool) (cc : ℚ) (hd ic : Bool) (sa : ℚ) (bd : Breakdown)
    (hsa : calculateStandardAllowance rates ct ca pa = .ok sa)
    (hbd : calculate rates ct ca pa (some cs) me pme mr lha hwa cc hd ic =
      .ok bd) :
    (cc ≤ 0 ∨ cs.length = 0 → bd.childcare_element = 0) ∧
    (0 < cc → 0 < cs.length →
      bd.childcare_element =
        round2 (min cc
          (if 2 ≤ cs.length then rates.CHILDCARE_MAX_TWO_PLUS
            else rates.CHILDCARE_MAX_ONE_CHILD) *
          rates.CHILDCARE_PERCENTAGE)) := by
  rw [calculate_ok rates ct ca pa cs me pme mr lha hwa cc hd ic sa hsa] at hbd
  injection hbd with h
  subst h
  constructor
  · intro h
    have hz : calculateChildcareElement rates cc cs.length = 0 := by
      unfold calculateChildcareElement
      rw [if_pos h]
    exact (congrArg round2 hz).trans round2_zero
  · intro h1 h2
    have he : calculateChildcareElement rates cc cs.length =
        min cc
          (if 2 ≤ cs.length then rates.CHILDCARE_MAX_TWO_PLUS
            else rates.CHILDCARE_MAX_ONE_CHILD) *
          rates.CHILDCARE_PERCENTAGE := by
      unfold calculateChildcareElement
      rw [if_neg (by push_neg; exact ⟨h1, by omega⟩)]
    exact congrArg round2 he

/-- Concrete breakdown for the C6 witness: single claimant aged 30, two
dependents, childcare cost 400 capped at 300 and reimbursed at 85%. -/
def UC.bdC : Breakdown where
  standard_allowance := 424.9
  housing_element := 0
  child_element := 521.94
  childcare_element := 255
  disability_element := 0
  carer_element := 0
  gross_entitlement := 1201.84
  work_allowance := 290
  total_earnings := 0
  earnings_deduction := 0
  total_entitlement := 1201.84

/-- Witness for C6: two dependents and a declared cost of 400. -/
theorem UC.c6_childcare_element_witness :
    calculateStandardAllowance defaultRates "single" 30 none =
      Except.ok 424.9 ∧
    calculate defaultRates "single" 30 none (some [⟨8, false⟩, ⟨5, false⟩])
      0 0 0 none false 400 false false = Except.ok bdC ∧
    bdC.childcare_element =
      round2 (min 400
        (if 2 ≤ [(⟨8, false⟩ : Child), ⟨5, false⟩].length then
          defaultRates.CHILDCARE_MAX_TWO_PLUS
          else defaultRates.CHILDCARE_MAX_ONE_CHILD) *
        defaultRates.CHILDCARE_PERCENTAGE) := by
  have hsa : calculateStandardAllowance defaultRates "single" 30 none =
      Except.ok 424.9 := by
    norm_num [calculateStandardAllowance, defaultRates]
  have hbd : calculate defaultRates "single" 30 none
      (some [⟨8, false⟩, ⟨5, false⟩]) 0 0 0 none false 400 false false =
      Except.ok bdC := by
    rw [calculate_ok defaultRates "single" 30 none [⟨8, false⟩, ⟨5, false⟩]
      0 0 0 none false 400 false false 424.9 hsa]
    norm_num [bdC, grossEntitlementOf, deductionOf, calculateHousingElement,
      calculateChildElement, childElemLoop, calculateChildcareElement,
      getWorkAllowance, calculateEarningsDeduction, defaultRates, min_def,
      List.cons_ne_nil, round2_zero]
    exact ⟨round2_eq_self 42490 (by norm_num),
      round2_eq_self 52194 (by norm_num),
      round2_eq_self 25500 (by norm_num),
      round2_eq_self 120184 (by norm_num),
      round2_eq_self 29000 (by norm_num),
      round2_eq_self 120184 (by norm_num)⟩
  exact ⟨hsa, hbd, (c6_childcare_element defaultRates "single" 30 none
    [⟨8, false⟩, ⟨5, false⟩] 0 0 0 none false 400 false false 424.9 bdC hsa
    hbd).2 (by norm_num) (by norm_num)⟩

/-- C7: for a non-negative rent the housing element is the actual rent
when no cap is supplied (and is monotone in the rent there), and is the
minimum of rent and cap — hence at most the cap — when a cap is
supplied. -/
theorem UC.c7_housing_element (mr cap mr2 : ℚ) (h0 : 0 ≤ mr)
    (hm : mr ≤ mr2) :
    calculateHousingElement mr none = mr ∧
    calculateHousingElement mr (some cap) = min mr cap ∧
    calculateHousingElement mr (some cap) ≤ cap ∧
    calculateHousingElement mr none ≤ calculateHousingElement mr2 none :=
  ⟨rfl, rfl, min_le_right mr cap, hm⟩

/-- Witness for C7 at rent 900, cap 700, larger rent 1000. -/
theorem UC.c7_housing_element_witness :
    calculateHousingElement 900 none = 900 ∧
    calculateHousingElement 900 (some 700) = min 900 700 ∧
    calculateHousingElement 900 (some 700) ≤ 700 ∧
    calculateHousingElement 900 none ≤ calculateHousingElement 1000 none :=
  c7_housing_element 900 700 1000 (by norm_num) (by norm_num)

/-- C8: on the valid input domain (ages at least 16) the joint band is
decided by the younger of the two ages against the 25 threshold, and the
single band by the claimant age alone. -/
theorem UC.c8_standard_allowance_band (rates : UCRates) (ca p : ℤ)
    (hca : 16 ≤ ca) (hp : 16 ≤ p) :
    calculateStandardAllowance rates "joint" ca (some p) =
      .ok (if min ca p < 25 then rates.joint_under_25
        else rates.joint_25_plus) ∧
    calculateStandardAllowance rates "single" ca none =
      .ok (if ca < 25 then rates.single_under_25
        else rates.single_25_plus) := by
  constructor
  · unfold calculateStandardAllowance
    rw [if_neg (by decide : ¬("joint" : String) = "single"), if_pos rfl]
    have hpy : pyOrInt (some p) ca = p := by
      show (if p = 0 then ca else p) = p
      rw [if_neg (by omega)]
    simp only [hpy]
    split_ifs <;> rfl
  · unfold calculateStandardAllowance
    rw [if_pos rfl]
    split_ifs <;> rfl

/-- Witness for C8: joint ages 22 and 25 fall in the under-25 band because
the younger age governs. -/
theorem UC.c8_standard_allowance_band_witness :
    calculateStandardAllowance defaultRates "joint" 22 (some 25) =
      .ok (if min 22 25 < 25 then defaultRates.joint_under_25
        else defaultRates.joint_25_plus) ∧
    calculateStandardAllowance defaultRates "single" 22 none =
      .ok (if (22 : ℤ) < 25 then defaultRates.single_under_25
        else defaultRates.single_25_plus) :=
  c8_standard_allowance_band defaultRates 22 25 (by norm_num) (by norm_num)

namespace LHA

/-- One value of the `DEFAULT_LHA_RATES` dictionary of
`lha_service.py`: all five bedroom-band rate keys are present in every
entry, so a key lookup inside an entry always succeeds. -/
structure BRMARates where
  brma_name : String
  local_authority : String
  studio_rate : ℚ
  one_bed_rate : ℚ
  two_bed_rate : ℚ
  three_bed_rate : ℚ
  four_bed_rate : ℚ
deriving DecidableEq

/-- The `DEFAULT_LHA_RATES` dictionary, as an association list in source
order. -/
def DEFAULT_LHA_RATES : List (String × BRMARates) :=
  [("E92000001",
    ⟨"North Yorkshire", "North Yorkshire Council", 600, 700, 850, 1000,
      1200⟩),
   ("E08000032",
    ⟨"Bradford", "Bradford Council", 550, 650, 800, 950, 1150⟩),
   ("E08000016",
    ⟨"Birmingham", "Birmingham City Council", 550, 700, 850, 1000, 1200⟩),
   ("E09000002",
    ⟨"London", "Barnet Council", 950, 1100, 1350, 1600, 1900⟩)]

/-- `LHAService.get_lha_rate`.  Python `if not brma_code` treats both
`None` and the empty string as falsy, so both yield `None`. -/
def get_lha_rate : Option String → ℤ → Option ℚ
  | none, _ => none
  | some code, bedrooms =>
    if code = "" then none
    else
      match DEFAULT_LHA_RATES.lookup code with
      | none => none
      | some rates =>
        if bedrooms = 0 then some rates.studio_rate
        else if bedrooms = 1 then some rates.one_bed_rate
        else if bedrooms = 2 then some rates.two_bed_rate
        else if bedrooms = 3 then some rates.three_bed_rate
        else if 4 ≤ bedrooms then some rates.four_bed_rate
        else none

/-- The five bedroom bands of the rate table. -/
inductive Band where
  | studio
  | one
  | two
  | three
  | fourPlus
deriving DecidableEq

/-- The band selected by the bedroom-count branch of `get_lha_rate`. -/
def bandOf (bedrooms : ℤ) : Option Band :=
  if bedrooms = 0 then some .studio
  else if bedrooms = 1 then some .one
  else if bedrooms = 2 then some .two
  else if bedrooms = 3 then some .three
  else if 4 ≤ bedrooms then some .fourPlus
  else none

/-- The rate an entry holds for a band. -/
def BRMARates.rateFor (r : BRMARates) : Band → ℚ
  | .studio => r.studio_rate
  | .one => r.one_bed_rate
  | .two => r.two_bed_rate
  | .three => r.three_bed_rate
  | .fourPlus => r.four_bed_rate

end LHA

/-- C9: the rate lookup is total — an absent or unknown area code yields
the absent value, never an error — and every non-negative bedroom count
selects exactly one of the five bands, every count of four or more
collapsing to the four-or-more band, whose rate is the returned amount. -/
theorem LHA.c9_rate_lookup (code : String) (b : ℤ) (r : BRMARates)
    (hb : 0 ≤ b) :
    get_lha_rate none b = none ∧
    (DEFAULT_LHA_RATES.lookup code = none →
      get_lha_rate (some code) b = none) ∧
    (DEFAULT_LHA_RATES.lookup code = some r →
      ∃ band, bandOf b = some band ∧
        get_lha_rate (some code) b = some (r.rateFor band) ∧
        (4 ≤ b → band = Band.fourPlus)) := by
  refine ⟨rfl, ?_, ?_⟩
  · intro h
    simp only [get_lha_rate]
    by_cases hc : code = ""
    · rw [if_pos hc]
    · rw [if_neg hc, h]
  · intro h
    have hne : code ≠ "" := by
      intro hc
      subst hc
      rw [show DEFAULT_LHA_RATES.lookup "" = none from by decide] at h
      exact Option.noConfusion h
    simp only [get_lha_rate]
    rw [if_neg hne, h]
    by_cases h0 : b = 0
    · subst h0
      exact ⟨.studio, rfl, rfl, fun h4 => absurd h4 (by omega)⟩
    · by_cases h1 : b = 1
      · subst h1
        exact ⟨.one, rfl, rfl, fun h4 => absurd h4 (by omega)⟩
      · by_cases h2 : b = 2
        · subst h2
          exact ⟨.two, rfl, rfl, fun h4 => absurd h4 (by omega)⟩
        · by_cases h3 : b = 3
          · subst h3
            exact ⟨.three, rfl, rfl, fun h4 => absurd h4 (by omega)⟩
          · have h4 : 4 ≤ b := by omega
            refine ⟨.fourPlus, ?_, ?_, fun _ => rfl⟩
            · unfold bandOf
              rw [if_neg h0, if_neg h1, if_neg h2, if_neg h3, if_pos h4]
            · show (if b = 0 then some r.studio_rate
                else if b = 1 then some r.one_bed_rate
                else if b = 2 then some r.two_bed_rate
                else if b = 3 then some r.three_bed_rate
                else if 4 ≤ b then some r.four_bed_rate
                else none) = some (r.rateFor Band.fourPlus)
              rw [if_neg h0, if_neg h1, if_neg h2, if_neg h3, if_pos h4]
              rfl

/-- Witness for C9: an absent code, an unknown code and a known area with
five bedrooms, the latter collapsing to the four-or-more band. -/
theorem LHA.c9_rate_lookup_witness :
    get_lha_rate none 5 = none ∧
    get_lha_rate (some "XX") 5 = none ∧
    get_lha_rate (some "E92000001") 5 = some 1200 := by
  have h := c9_rate_lookup "E92000001" 5
    ⟨"North Yorkshire", "North Yorkshire Council", 600, 700, 850, 1000,
      1200⟩ (by norm_num)
  have h2 := c9_rate_lookup "XX" 5
    ⟨"North Yorkshire", "North Yorkshire Council", 600, 700, 850, 1000,
      1200⟩ (by norm_num)
  refine ⟨h.1, h2.2.1 (by decide), ?_⟩
  obtain ⟨band, hband, hrate, h4⟩ := h.2.2 rfl
  rw [h4 (by norm_num)] at hrate
  exact hrate

/-- The work-allowance helper never reads its `has_work_allowance`
argument. -/
lemma UC.getWorkAllowance_hwa_irrelevant (rates : UCRates) (ct : String)
    (a b : Bool) (n : ℕ) (hd ic : Bool) :
    getWorkAllowance rates ct a n hd ic =
      getWorkAllowance rates ct b n hd ic := rfl

/-- C10: two calls to `calculate` that differ only in the
`has_work_allowance` flag return identical breakdowns in every field: the
flag is accepted but has no effect on the result. -/
theorem UC.c10_has_work_allowance_no_effect (rates : UCRates) (ct : String)
    (ca : ℤ) (pa : Option ℤ) (och : Option (List Child))
    (me pme mr : ℚ) (lha : Option ℚ) (a b : Bool) (cc : ℚ)
    (hd ic : Bool) :
    calculate rates ct ca pa och me pme mr lha a cc hd ic =
      calculate rates ct ca pa och me pme mr lha b cc hd ic := by
  unfold calculate
  simp only [getWorkAllowance_hwa_irrelevant rates ct a b]

